import Mathlib

/-!
Verification development for the db-mcp-server capability dispatch layer.

The Go source is shallowly embedded: each tool handler becomes a pure Lean
function from its extracted parameters, the resolved database dialect
(the result of the external `GetDatabaseType` collaborator) and an executor
oracle (the external `ExecuteQuery`/`ExecuteStatement` collaborator) to the
handler's outcome together with the trace of SQL statements it passed to the
executor.  SQL text is carried verbatim from the Go string literals.
-/

namespace DbMcp

/-! ## Models of the Go standard-library string helpers used by the source -/

/-- Go unicode.IsSpace restricted to the ASCII whitespace characters
(space, tab, newline, vertical tab, form feed, carriage return); the
non-ASCII Unicode spaces Go also trims are not reachable from the claims
checked here. -/
def goIsSpace (c : Char) : Bool :=
  c.toNat == 32 || c.toNat == 9 || c.toNat == 10 || c.toNat == 11 ||
  c.toNat == 12 || c.toNat == 13

/-- ASCII case of Go unicode.ToUpper on one character. -/
def goToUpperChar (c : Char) : Char :=
  if 97 ≤ c.toNat && c.toNat ≤ 122 then Char.ofNat (c.toNat - 32) else c

/-- ASCII case of Go unicode.ToLower on one character. -/
def goToLowerChar (c : Char) : Char :=
  if 65 ≤ c.toNat && c.toNat ≤ 90 then Char.ofNat (c.toNat + 32) else c

/-- Go strings.ToUpper (ASCII). -/
def goToUpper (s : String) : String := ⟨s.data.map goToUpperChar⟩

/-- Go strings.ToLower (ASCII), used by every handler's dialect switch. -/
def goToLower (s : String) : String := ⟨s.data.map goToLowerChar⟩

/-- Go strings.TrimSpace: drop leading and trailing whitespace. -/
def goTrimSpace (s : String) : String :=
  ⟨((s.data.dropWhile goIsSpace).reverse.dropWhile goIsSpace).reverse⟩

/-- Go strings.HasPrefix. -/
def goHasPrefix (s pre : String) : Bool := pre.data.isPrefixOf s.data

/-- Go strings.Replace(s, old, new, -1) for a one-character pattern, the only
form the source uses (quote doubling): every occurrence of `old` in `s` is
replaced by the string `new`. -/
def goReplaceChar (s : String) (old : Char) (new : String) : String :=
  ⟨s.data.foldr (fun c acc => (if c == old then new.data else [c]) ++ acc) []⟩

/-- Substring test over the underlying character lists: does `pat` occur
contiguously in `s`?  Executable so concrete queries can be checked by
`decide`. -/
def hasPrefixChars : List Char → List Char → Bool
  | _, [] => true
  | [], _ :: _ => false
  | c :: cs, p :: ps => c == p && hasPrefixChars cs ps

/-- Does the pattern occur contiguously somewhere in the list? -/
def hasSubstrChars : List Char → List Char → Bool
  | [], pat => pat.isEmpty
  | c :: cs, pat => hasPrefixChars (c :: cs) pat || hasSubstrChars cs pat

/-- String-level contiguous-substring test. -/
def strContainsSub (s pat : String) : Bool := hasSubstrChars s.data pat.data

/-! ## ConnectionRegistry (src/pkg/dbtools/config.go)

The Go registry is a process-global `map[string]DatabaseConnectionConfig`
guarded by an RWMutex; the map state is passed explicitly here and the lock
is elided (single-threaded shallow embedding). -/

/-- DatabaseConnectionConfig from src/pkg/dbtools/config.go.  The Go field
`Type` is spelled `DBType` because `Type` is a Lean keyword. -/
structure DatabaseConnectionConfig where
  ID : String
  DBType : String
  Host : String
  Port : Int
  User : String
  Password : String
  Name : String
  Description : String
deriving DecidableEq, Repr

/-- The registry state: what the Go global `configs` map associates to each ID. -/
def ConfigMap := String → Option DatabaseConnectionConfig

/-- RegisterDatabaseConfig: `configs[config.ID] = config` (upsert by ID). -/
def RegisterDatabaseConfig (configs : ConfigMap) (config : DatabaseConnectionConfig) :
    ConfigMap :=
  fun id => if id = config.ID then some config else configs id

/-- GetDatabaseConfig: map lookup, with the source's not-found error message. -/
def GetDatabaseConfig (configs : ConfigMap) (id : String) :
    Except String DatabaseConnectionConfig :=
  match configs id with
  | some config => .ok config
  | none => .error ("database configuration not found for ID: " ++ id)

/-- The map before any registration. -/
def emptyConfigs : ConfigMap := fun _ => none

/-! ## The executor collaborator

`exec isQuery sql` models one call to the external executor: `ExecuteQuery`
when `isQuery` is true, `ExecuteStatement` otherwise.  It returns either the
formatted result text or the error message (the `%v` rendering of the Go
error).  A handler's value is its outcome paired with the ordered trace of
executor calls it made. -/

abbrev ExecFn := Bool → String → Except String String

abbrev HandlerResult := Except String String × List (Bool × String)

/-! ## DialectQueryBuilder: indexes (src/unnamed/part_001) -/

/-- Projection of the PostgreSQL index query (base columns). -/
def pgIndexesSelect : String :=
  "\nSELECT \n    t.relname AS table_name,\n    i.relname AS index_name,\n    a.amname AS index_type,\n    CASE \n        WHEN ix.indisprimary THEN 'PRIMARY KEY'\n        WHEN ix.indisunique THEN 'UNIQUE'\n        ELSE 'INDEX'\n    END AS constraint_type,\n    array_to_string(array_agg(pg_get_indexdef(ix.indexrelid, k + 1, true)), ', ') AS column_names"

/-- Extra projected columns added when `detailed` is set (PostgreSQL indexes). -/
def pgIndexesSelectDetail : String :=
  ",\n    pg_size_pretty(pg_relation_size(i.oid)) AS index_size,\n    pg_get_indexdef(ix.indexrelid) AS index_definition,\n    CASE WHEN ix.indpred IS NOT NULL THEN 'Yes' ELSE 'No' END AS is_partial,\n    CASE WHEN a.amname = 'btree' AND ix.indoption[0] & 1 = 1 THEN 'DESC' ELSE 'ASC' END AS sort_order"

/-- FROM/JOIN/WHERE block of the PostgreSQL index query. -/
def pgIndexesFrom : String :=
  "\nFROM pg_index ix\nJOIN pg_class i ON i.oid = ix.indexrelid\nJOIN pg_class t ON t.oid = ix.indrelid\nJOIN pg_namespace n ON n.oid = t.relnamespace\nJOIN pg_am a ON a.oid = i.relam,\ngenerate_series(0, array_length(ix.indkey, 1) - 1) AS k\nWHERE n.nspname = 'public'"

/-- Optional table filter of the PostgreSQL index query: the Go code appends
it only when tableName is nonempty, escaping single quotes by doubling. -/
def pgIndexesFilter (tableName : String) : String :=
  if tableName != "" then
    " AND t.relname = '" ++ goReplaceChar tableName '\'' "''" ++ "'"
  else ""

/-- Base GROUP BY of the PostgreSQL index query. -/
def pgIndexesGroupBy : String :=
  "\nGROUP BY t.relname, i.relname, a.amname, ix.indisprimary, ix.indisunique"

/-- Grouping columns appended when `detailed` is set (PostgreSQL indexes). -/
def pgIndexesGroupByDetail : String :=
  ", i.oid, ix.indexrelid, ix.indpred, a.amname, ix.indoption"

/-- ORDER BY of the PostgreSQL index query. -/
def pgIndexesOrder : String := "\nORDER BY t.relname, i.relname;"

/-- getPostgresIndexesQuery from src/unnamed/part_001: the Go function builds
the query by successive `+=` on these pieces. -/
def getPostgresIndexesQuery (tableName : String) (detailed : Bool) : String :=
  pgIndexesSelect ++ (if detailed then pgIndexesSelectDetail else "")
    ++ pgIndexesFrom ++ pgIndexesFilter tableName
    ++ pgIndexesGroupBy ++ (if detailed then pgIndexesGroupByDetail else "")
    ++ pgIndexesOrder

/-- Projection of the MySQL index query (base columns). -/
def myIndexesSelect : String :=
  "\nSELECT \n    table_name,\n    index_name,\n    GROUP_CONCAT(column_name ORDER BY seq_in_index) AS column_names,\n    CASE \n        WHEN index_name = 'PRIMARY' THEN 'PRIMARY KEY'\n        WHEN non_unique = 0 THEN 'UNIQUE'\n        ELSE 'INDEX'\n    END AS constraint_type,\n    index_type"

/-- Extra projected columns added when `detailed` is set (MySQL indexes). -/
def myIndexesSelectDetail : String :=
  ",\n    CASE WHEN index_name = 'PRIMARY' THEN 'YES' ELSE 'NO' END AS is_primary,\n    CASE WHEN non_unique = 0 THEN 'YES' ELSE 'NO' END AS is_unique,\n    CASE WHEN index_type = 'FULLTEXT' THEN 'YES' ELSE 'NO' END AS is_fulltext,\n    CASE WHEN index_comment != '' THEN index_comment ELSE NULL END AS comment"

/-- FROM/WHERE block of the MySQL index query. -/
def myIndexesFrom : String :=
  "\nFROM information_schema.statistics\nWHERE table_schema = DATABASE()"

/-- Optional table filter of the MySQL index query.  NOTE (faithful to the
source): the Go code doubles backticks in the table name but then interpolates
it into a single-quoted SQL string literal. -/
def myIndexesFilter (tableName : String) : String :=
  if tableName != "" then
    " AND table_name = '" ++ goReplaceChar tableName '`' "``" ++ "'"
  else ""

/-- Base GROUP BY of the MySQL index query. -/
def myIndexesGroupBy : String :=
  "\nGROUP BY table_name, index_name, non_unique, index_type"

/-- Grouping column appended when `detailed` is set (MySQL indexes). -/
def myIndexesGroupByDetail : String := ", index_comment"

/-- ORDER BY of the MySQL index query. -/
def myIndexesOrder : String := "\nORDER BY table_name, index_name;"

/-- getMySQLIndexesQuery from src/unnamed/part_001. -/
def getMySQLIndexesQuery (tableName : String) (detailed : Bool) : String :=
  myIndexesSelect ++ (if detailed then myIndexesSelectDetail else "")
    ++ myIndexesFrom ++ myIndexesFilter tableName
    ++ myIndexesGroupBy ++ (if detailed then myIndexesGroupByDetail else "")
    ++ myIndexesOrder

/-! ## DialectQueryBuilder: views (src/unnamed/part_003) -/

/-- Base PostgreSQL views query when the definition is included (whole Go
literal). -/
def pgViewsBaseDef : String :=
  "\nSELECT \n    schemaname AS schema_name,\n    viewname AS view_name,\n    definition AS view_definition\nFROM pg_catalog.pg_views\nWHERE schemaname NOT IN ('pg_catalog', 'information_schema')"

/-- Base PostgreSQL views query when the definition is not included (the Go
code replaces the whole base literal). -/
def pgViewsBaseNoDef : String :=
  "\nSELECT \n    schemaname AS schema_name,\n    viewname AS view_name,\n    'Definition not included' AS view_definition\nFROM pg_catalog.pg_views\nWHERE schemaname NOT IN ('pg_catalog', 'information_schema')"

/-- Optional view filter (PostgreSQL), single quotes doubled. -/
def pgViewsFilter (viewName : String) : String :=
  if viewName != "" then
    " AND viewname = '" ++ goReplaceChar viewName '\'' "''" ++ "'"
  else ""

/-- ORDER BY of the PostgreSQL views query. -/
def pgViewsOrder : String := "\nORDER BY schemaname, viewname;"

/-- getPostgresViewsQuery from src/unnamed/part_003: the Go code first builds
the include-definition variant and, when includeDefinition is false, rebuilds
the query from the alternative base; both paths append the same filter and
ORDER BY. -/
def getPostgresViewsQuery (viewName : String) (includeDefinition : Bool) : String :=
  if includeDefinition then pgViewsBaseDef ++ pgViewsFilter viewName ++ pgViewsOrder
  else pgViewsBaseNoDef ++ pgViewsFilter viewName ++ pgViewsOrder

/-- Projection head of the MySQL views query. -/
def myViewsSelect : String :=
  "\nSELECT \n    table_schema AS schema_name,\n    table_name AS view_name"

/-- Definition column (flag set). -/
def myViewsDefCol : String := ",\n    view_definition"

/-- Placeholder column (flag unset). -/
def myViewsNoDefCol : String := ",\n    'Definition not included' AS view_definition"

/-- FROM/WHERE block of the MySQL views query. -/
def myViewsFrom : String :=
  "\nFROM information_schema.views\nWHERE table_schema = DATABASE()"

/-- Optional view filter of the MySQL views query.  NOTE (faithful to the
source): backticks are doubled but the name lands in a single-quoted literal. -/
def myViewsFilter (viewName : String) : String :=
  if viewName != "" then
    " AND table_name = '" ++ goReplaceChar viewName '`' "``" ++ "'"
  else ""

/-- ORDER BY of the MySQL views query. -/
def myViewsOrder : String := "\nORDER BY table_schema, table_name;"

/-- getMySQLViewsQuery from src/unnamed/part_003. -/
def getMySQLViewsQuery (viewName : String) (includeDefinition : Bool) : String :=
  myViewsSelect ++ (if includeDefinition then myViewsDefCol else myViewsNoDefCol)
    ++ myViewsFrom ++ myViewsFilter viewName ++ myViewsOrder

/-! ## DialectQueryBuilder: schemas (src/internal/delivery/mcp/get_schemas_tool.go) -/

/-- Base PostgreSQL schemas query. -/
def pgSchemasBase : String :=
  "\nSELECT \n    n.nspname AS schema_name,\n    pg_catalog.pg_get_userbyid(n.nspowner) AS owner,\n    pg_catalog.array_to_string(n.nspacl, E'\\n') AS access_privileges,\n    pg_catalog.obj_description(n.oid, 'pg_namespace') AS description,\n    (SELECT COUNT(*) FROM pg_catalog.pg_class c WHERE c.relnamespace = n.oid AND c.relkind = 'r') AS tables_count,\n    (SELECT COUNT(*) FROM pg_catalog.pg_class c WHERE c.relnamespace = n.oid AND c.relkind = 'v') AS views_count,\n    (SELECT COUNT(*) FROM pg_catalog.pg_proc p WHERE p.pronamespace = n.oid) AS functions_count\nFROM pg_catalog.pg_namespace n"

/-- System-schema exclusion clause, appended unless include_system_schemas. -/
def pgSchemasSystemFilter : String :=
  "\nWHERE n.nspname NOT IN ('pg_catalog', 'information_schema', 'pg_toast', 'pg_temp_1', 'pg_toast_temp_1')"

/-- ORDER BY of the PostgreSQL schemas query. -/
def pgSchemasOrder : String := "\nORDER BY n.nspname;"

/-- getPostgresSchemasQuery from get_schemas_tool.go. -/
def getPostgresSchemasQuery (schemaName : String) (includeSystemSchemas : Bool) : String :=
  let baseQuery := pgSchemasBase
  let baseQuery :=
    if !includeSystemSchemas then baseQuery ++ pgSchemasSystemFilter else baseQuery
  let baseQuery :=
    if schemaName != "" then
      let safeSchemaName := goReplaceChar schemaName '\'' "''"
      if !includeSystemSchemas then
        baseQuery ++ (" AND n.nspname = '" ++ safeSchemaName ++ "'")
      else
        baseQuery ++ (" WHERE n.nspname = '" ++ safeSchemaName ++ "'")
    else baseQuery
  baseQuery ++ pgSchemasOrder

/-- Base MySQL schemas query. -/
def mySchemasBase : String :=
  "\nSELECT \n    schema_name,\n    default_character_set_name AS character_set,\n    default_collation_name AS collation,\n    (SELECT COUNT(*) FROM information_schema.tables t WHERE t.table_schema = s.schema_name AND t.table_type = 'BASE TABLE') AS tables_count,\n    (SELECT COUNT(*) FROM information_schema.tables t WHERE t.table_schema = s.schema_name AND t.table_type = 'VIEW') AS views_count,\n    (SELECT COUNT(*) FROM information_schema.routines r WHERE r.routine_schema = s.schema_name) AS routines_count\nFROM information_schema.schemata s"

/-- getMySQLSchemasQuery from get_schemas_tool.go. -/
def getMySQLSchemasQuery (schemaName : String) : String :=
  let baseQuery := mySchemasBase
  let baseQuery :=
    if schemaName != "" then
      baseQuery ++ (" WHERE schema_name = '" ++ goReplaceChar schemaName '\'' "''" ++ "'")
    else baseQuery
  baseQuery ++ "\nORDER BY schema_name;"

/-! ## DialectQueryBuilder: custom types (src/unnamed/part_002) -/

/-- Base PostgreSQL custom-types query. -/
def pgTypesBase : String :=
  "\nSELECT \n    n.nspname AS schema_name,\n    t.typname AS type_name,\n    CASE \n        WHEN t.typtype = 'e' THEN 'ENUM'\n        WHEN t.typtype = 'c' THEN 'COMPOSITE'\n        WHEN t.typtype = 'd' THEN 'DOMAIN'\n        WHEN t.typtype = 'r' THEN 'RANGE'\n        WHEN t.typtype = 'b' THEN 'BASE'\n        ELSE t.typtype::text\n    END AS type_category,\n    CASE\n        WHEN t.typtype = 'e' THEN \n            (SELECT string_agg(quote_literal(enumlabel), ', ' ORDER BY enumsortorder)\n             FROM pg_enum\n             WHERE enumtypid = t.oid)\n        WHEN t.typtype = 'c' THEN \n            (SELECT string_agg(attname || ' ' || format_type(atttypid, atttypmod), ', ' ORDER BY attnum)\n             FROM pg_attribute\n             WHERE attrelid = t.typrelid AND attnum > 0 AND NOT attisdropped)\n        WHEN t.typtype = 'd' THEN \n            format_type(t.typbasetype, t.typtypmod) || \n            CASE WHEN t.typnotnull THEN ' NOT NULL' ELSE '' END ||\n            CASE WHEN t.typdefault IS NOT NULL THEN ' DEFAULT ' || t.typdefault ELSE '' END\n        WHEN t.typtype = 'r' THEN \n            (SELECT format_type(rngsubtype, NULL) FROM pg_range WHERE rngtypid = t.oid)\n        ELSE format_type(t.oid, NULL)\n    END AS type_definition,\n    pg_catalog.obj_description(t.oid, 'pg_type') AS description\nFROM pg_type t\nJOIN pg_namespace n ON t.typnamespace = n.oid\nWHERE (t.typtype IN ('e', 'c', 'd', 'r') OR (t.typtype = 'b' AND t.typname NOT LIKE '\\\\_%'))\nAND n.nspname NOT IN ('pg_catalog', 'information_schema')"

/-- getPostgresTypesQuery from src/unnamed/part_002. -/
def getPostgresTypesQuery (typeName : String) : String :=
  let baseQuery := pgTypesBase
  let baseQuery :=
    if typeName != "" then
      baseQuery ++ (" AND t.typname = '" ++ goReplaceChar typeName '\'' "''" ++ "'")
    else baseQuery
  baseQuery ++ "\nORDER BY n.nspname, t.typname;"

/-! ## DialectQueryBuilder: constraints (src/internal/delivery/mcp/get_constraints_tool.go) -/

/-- Base PostgreSQL constraints query. -/
def pgConstraintsBase : String :=
  "\nSELECT \n    tc.table_schema,\n    tc.table_name,\n    tc.constraint_name,\n    tc.constraint_type,\n    CASE \n        WHEN tc.constraint_type = 'FOREIGN KEY' THEN ccu.table_name\n        ELSE NULL\n    END AS referenced_table,\n    CASE \n        WHEN tc.constraint_type = 'FOREIGN KEY' THEN \n            string_agg(kcu.column_name, ', ' ORDER BY kcu.ordinal_position)\n        ELSE \n            string_agg(kcu.column_name, ', ' ORDER BY kcu.ordinal_position)\n    END AS column_names,\n    CASE \n        WHEN tc.constraint_type = 'FOREIGN KEY' THEN \n            string_agg(ccu.column_name, ', ' ORDER BY kcu.ordinal_position)\n        ELSE NULL\n    END AS referenced_columns,\n    CASE \n        WHEN tc.constraint_type = 'CHECK' THEN pgc.consrc\n        ELSE NULL\n    END AS check_definition\nFROM information_schema.table_constraints tc\nJOIN information_schema.key_column_usage kcu\n    ON tc.constraint_name = kcu.constraint_name\n    AND tc.table_schema = kcu.table_schema\nLEFT JOIN information_schema.constraint_column_usage ccu\n    ON ccu.constraint_name = tc.constraint_name\n    AND ccu.table_schema = tc.table_schema\nLEFT JOIN pg_constraint pgc\n    ON pgc.conname = tc.constraint_name\nLEFT JOIN pg_namespace nsp\n    ON nsp.nspname = tc.table_schema\n    AND pgc.connamespace = nsp.oid\nWHERE tc.table_schema = 'public'"

/-- GROUP BY and ORDER BY tail of the PostgreSQL constraints query. -/
def pgConstraintsTail : String :=
  "\nGROUP BY tc.table_schema, tc.table_name, tc.constraint_name, tc.constraint_type, \n    CASE WHEN tc.constraint_type = 'FOREIGN KEY' THEN ccu.table_name ELSE NULL END,\n    CASE WHEN tc.constraint_type = 'CHECK' THEN pgc.consrc ELSE NULL END\nORDER BY tc.table_name, tc.constraint_name;"

/-- getPostgresConstraintsQuery from get_constraints_tool.go. -/
def getPostgresConstraintsQuery (tableName constraintType : String) : String :=
  let baseQuery := pgConstraintsBase
  let baseQuery :=
    if tableName != "" then
      baseQuery ++ (" AND tc.table_name = '" ++ goReplaceChar tableName '\'' "''" ++ "'")
    else baseQuery
  let baseQuery :=
    if constraintType != "" then
      baseQuery ++ (" AND tc.constraint_type = '" ++ goReplaceChar constraintType '\'' "''" ++ "'")
    else baseQuery
  baseQuery ++ pgConstraintsTail

/-- Base MySQL constraints query. -/
def myConstraintsBase : String :=
  "\nSELECT \n    tc.table_schema,\n    tc.table_name,\n    tc.constraint_name,\n    CASE \n        WHEN tc.constraint_type = 'PRIMARY KEY' THEN 'PRIMARY KEY'\n        WHEN tc.constraint_type = 'UNIQUE' THEN 'UNIQUE'\n        WHEN tc.constraint_type = 'FOREIGN KEY' THEN 'FOREIGN KEY'\n        ELSE tc.constraint_type\n    END AS constraint_type,\n    GROUP_CONCAT(kcu.column_name ORDER BY kcu.ordinal_position) AS column_names,\n    kcu.referenced_table_name AS referenced_table,\n    GROUP_CONCAT(kcu.referenced_column_name ORDER BY kcu.ordinal_position) AS referenced_columns\nFROM information_schema.table_constraints tc\nJOIN information_schema.key_column_usage kcu\n    ON tc.constraint_name = kcu.constraint_name\n    AND tc.table_schema = kcu.table_schema\n    AND tc.table_name = kcu.table_name\nWHERE tc.table_schema = DATABASE()"

/-- GROUP BY and ORDER BY tail of the MySQL constraints query. -/
def myConstraintsTail : String :=
  "\nGROUP BY tc.table_schema, tc.table_name, tc.constraint_name, tc.constraint_type, kcu.referenced_table_name\nORDER BY tc.table_name, tc.constraint_name;"

/-- getMySQLConstraintsQuery from get_constraints_tool.go.  NOTE (faithful to
the source): the optional table filter doubles backticks in the table name but
interpolates it into a single-quoted SQL literal. -/
def getMySQLConstraintsQuery (tableName constraintType : String) : String :=
  let baseQuery := myConstraintsBase
  let baseQuery :=
    if tableName != "" then
      baseQuery ++ (" AND tc.table_name = '" ++ goReplaceChar tableName '`' "``" ++ "'")
    else baseQuery
  let baseQuery :=
    if constraintType != "" then
      let mysqlConstraintType :=
        if goToUpper constraintType == "PRIMARY KEY" then "PRIMARY KEY"
        else if goToUpper constraintType == "FOREIGN KEY" then "FOREIGN KEY"
        else if goToUpper constraintType == "UNIQUE" then "UNIQUE"
        else constraintType
      baseQuery ++ (" AND tc.constraint_type = '" ++ goReplaceChar mysqlConstraintType '\'' "''" ++ "'")
    else baseQuery
  baseQuery ++ myConstraintsTail

/-! ## DialectQueryBuilder: sample data and unique values
(src/internal/delivery/mcp/get_sample_data_tool.go, src/unnamed/part_003)

Both builders quote identifiers the same way: double quotes with internal
double quotes doubled for postgres, backticks with internal backticks doubled
otherwise. -/

/-- Identifier quoting shared by the sampling builders (inlined in the Go
source once per identifier). -/
def safeIdent (dbType name : String) : String :=
  if goToLower dbType == "postgres" then
    "\"" ++ goReplaceChar name '"' "\"\"" ++ "\""
  else
    "`" ++ goReplaceChar name '`' "``" ++ "`"

/-- buildSampleDataQuery from get_sample_data_tool.go. -/
def buildSampleDataQuery (dbType tableName : String) (limit : Int)
    (whereClause orderByClause : String) (random : Bool) : String :=
  let safeTableName := safeIdent dbType tableName
  let query := "SELECT * FROM " ++ safeTableName
  let query := if whereClause != "" then query ++ (" WHERE " ++ whereClause) else query
  let query :=
    if random then
      if goToLower dbType == "postgres" then query ++ " ORDER BY RANDOM()"
      else query ++ " ORDER BY RAND()"
    else if orderByClause != "" then query ++ (" ORDER BY " ++ orderByClause)
    else query
  query ++ (" LIMIT " ++ toString limit)

/-- buildUniqueValuesQuery from src/unnamed/part_003. -/
def buildUniqueValuesQuery (dbType tableName columnName : String) (limit : Int)
    (whereClause : String) (includeCounts includeNulls : Bool) : String :=
  let safeTableName := safeIdent dbType tableName
  let safeColumnName := safeIdent dbType columnName
  let query :=
    if includeCounts then
      "SELECT " ++ safeColumnName
        ++ ", COUNT(*) AS count, ROUND(COUNT(*) * 100.0 / (SELECT COUNT(*) FROM "
        ++ safeTableName ++ "), 2) AS percentage FROM " ++ safeTableName
    else
      "SELECT DISTINCT " ++ safeColumnName ++ " FROM " ++ safeTableName
  let query := if whereClause != "" then query ++ (" WHERE " ++ whereClause) else query
  let query :=
    if !includeNulls then
      if whereClause == "" then query ++ (" WHERE " ++ safeColumnName ++ " IS NOT NULL")
      else query ++ (" AND " ++ safeColumnName ++ " IS NOT NULL")
    else query
  let query :=
    if includeCounts then
      query ++ (" GROUP BY " ++ safeColumnName ++ " ORDER BY COUNT(*) DESC")
    else
      query ++ (" ORDER BY " ++ safeColumnName)
  query ++ (" LIMIT " ++ toString limit)

/-! ## DialectQueryBuilder: database statistics (src/internal/delivery/mcp/db_stats_tool.go) -/

/-- getPostgresStatsQueries: three basic statements, plus three detailed ones. -/
def getPostgresStatsQueries (detailed : Bool) : List String :=
  let queries := [
    "SELECT pg_size_pretty(pg_database_size(current_database())) AS database_size;",
    "SELECT \n\t\t\tcount(*) AS total_connections,\n\t\t\tsum(CASE WHEN state = 'active' THEN 1 ELSE 0 END) AS active_connections,\n\t\t\tsum(CASE WHEN state = 'idle' THEN 1 ELSE 0 END) AS idle_connections\n\t\tFROM pg_stat_activity;",
    "SELECT \n\t\t\tschemaname, \n\t\t\trelname AS table_name, \n\t\t\tpg_size_pretty(pg_total_relation_size(relid)) AS total_size,\n\t\t\tpg_size_pretty(pg_relation_size(relid)) AS table_size,\n\t\t\tpg_size_pretty(pg_total_relation_size(relid) - pg_relation_size(relid)) AS index_size,\n\t\t\tn_live_tup AS row_count\n\t\tFROM pg_stat_user_tables\n\t\tORDER BY pg_total_relation_size(relid) DESC\n\t\tLIMIT 10;"]
  if detailed then
    queries ++ [
      "SELECT \n\t\t\t\tschemaname,\n\t\t\t\trelname AS table_name,\n\t\t\t\tindexrelname AS index_name,\n\t\t\t\tidx_scan AS index_scans,\n\t\t\t\tidx_tup_read AS tuples_read,\n\t\t\t\tidx_tup_fetch AS tuples_fetched\n\t\t\tFROM pg_stat_user_indexes\n\t\t\tORDER BY idx_scan DESC\n\t\t\tLIMIT 10;",
      "SELECT \n\t\t\t\tc.relname AS table_name,\n\t\t\t\tpg_size_pretty(count(*) * 8192) AS buffer_size,\n\t\t\t\tround(100.0 * count(*) / (SELECT setting::integer FROM pg_settings WHERE name = 'shared_buffers'), 2) AS buffer_percent\n\t\t\tFROM pg_class c\n\t\t\tINNER JOIN pg_buffercache b ON b.relfilenode = c.relfilenode\n\t\t\tINNER JOIN pg_database d ON (b.reldatabase = d.oid AND d.datname = current_database())\n\t\t\tWHERE c.relkind IN ('r', 't', 'm')\n\t\t\tGROUP BY c.relname\n\t\t\tORDER BY count(*) DESC\n\t\t\tLIMIT 10;",
      "SELECT \n\t\t\t\tdatname,\n\t\t\t\txact_commit AS commits,\n\t\t\t\txact_rollback AS rollbacks,\n\t\t\t\tblks_read,\n\t\t\t\tblks_hit,\n\t\t\t\ttup_returned,\n\t\t\t\ttup_fetched,\n\t\t\t\ttup_inserted,\n\t\t\t\ttup_updated,\n\t\t\t\ttup_deleted\n\t\t\tFROM pg_stat_database\n\t\t\tWHERE datname = current_database();"]
  else queries

/-- getMySQLStatsQueries: three basic statements, plus four detailed ones. -/
def getMySQLStatsQueries (detailed : Bool) : List String :=
  let queries := [
    "SELECT \n\t\t\ttable_schema AS database_name,\n\t\t\tROUND(SUM(data_length + index_length) / 1024 / 1024, 2) AS size_mb\n\t\tFROM information_schema.tables\n\t\tWHERE table_schema = DATABASE()\n\t\tGROUP BY table_schema;",
    "SHOW STATUS WHERE Variable_name IN ('Threads_connected', 'Threads_running', 'Max_used_connections');",
    "SELECT \n\t\t\ttable_name,\n\t\t\tengine,\n\t\t\ttable_rows,\n\t\t\tROUND((data_length + index_length) / 1024 / 1024, 2) AS size_mb,\n\t\t\tROUND(data_length / 1024 / 1024, 2) AS data_size_mb,\n\t\t\tROUND(index_length / 1024 / 1024, 2) AS index_size_mb\n\t\tFROM information_schema.tables\n\t\tWHERE table_schema = DATABASE()\n\t\tORDER BY (data_length + index_length) DESC\n\t\tLIMIT 10;"]
  if detailed then
    queries ++ [
      "SHOW GLOBAL STATUS WHERE Variable_name LIKE 'Innodb_buffer_pool%';",
      "SHOW GLOBAL STATUS WHERE Variable_name LIKE 'Qcache%';",
      "SELECT \n\t\t\t\ttable_schema,\n\t\t\t\ttable_name,\n\t\t\t\trows_read,\n\t\t\t\trows_inserted,\n\t\t\t\trows_updated,\n\t\t\t\trows_deleted\n\t\t\tFROM information_schema.table_statistics\n\t\t\tWHERE table_schema = DATABASE()\n\t\t\tORDER BY rows_read DESC\n\t\t\tLIMIT 10;",
      "SELECT \n\t\t\t\ttable_schema,\n\t\t\t\ttable_name,\n\t\t\t\tindex_name,\n\t\t\t\trows_read\n\t\t\tFROM information_schema.index_statistics\n\t\t\tWHERE table_schema = DATABASE()\n\t\t\tORDER BY rows_read DESC\n\t\t\tLIMIT 10;"]
  else queries

/-! ## DialectQueryBuilder: table statistics (src/unnamed/part_002) -/

/-- One statement of the table-statistics builders (Go literal with %s filled by the escaped table name). -/
def pgTableSizeQuery (s : String) : String :=
  "SELECT \n\t\t\tpg_size_pretty(pg_total_relation_size('" ++ s ++ "')) AS total_size,\n\t\t\tpg_size_pretty(pg_relation_size('" ++ s ++ "')) AS table_size,\n\t\t\tpg_size_pretty(pg_total_relation_size('" ++ s ++ "') - pg_relation_size('" ++ s ++ "')) AS index_size,\n\t\t\tn_live_tup AS row_count,\n\t\t\tn_dead_tup AS dead_tuples\n\t\tFROM pg_stat_user_tables\n\t\tWHERE relname = '" ++ s ++ "';"

/-- One statement of the table-statistics builders (Go literal with %s filled by the escaped table name). -/
def pgTableColumnsQuery (s : String) : String :=
  "SELECT \n\t\t\ta.attname AS column_name,\n\t\t\tpg_catalog.format_type(a.atttypid, a.atttypmod) AS data_type,\n\t\t\tCASE WHEN a.attnotnull THEN 'NOT NULL' ELSE 'NULL' END AS nullable,\n\t\t\tCASE WHEN (\n\t\t\t\tSELECT COUNT(*) FROM pg_constraint\n\t\t\t\tWHERE conrelid = a.attrelid\n\t\t\t\tAND conkey[1] = a.attnum\n\t\t\t\tAND contype = 'p'\n\t\t\t) > 0 THEN 'PK' ELSE '' END AS is_primary_key\n\t\tFROM pg_catalog.pg_attribute a\n\t\tJOIN pg_catalog.pg_class c ON a.attrelid = c.oid\n\t\tJOIN pg_catalog.pg_namespace n ON c.relnamespace = n.oid\n\t\tWHERE c.relname = '" ++ s ++ "'\n\t\tAND a.attnum > 0\n\t\tAND NOT a.attisdropped\n\t\tAND n.nspname = 'public'\n\t\tORDER BY a.attnum;"

/-- One statement of the table-statistics builders (Go literal with %s filled by the escaped table name). -/
def pgTableIndexQuery (s : String) : String :=
  "SELECT \n\t\t\ti.relname AS index_name,\n\t\t\tpg_size_pretty(pg_relation_size(i.relname::regclass)) AS index_size,\n\t\t\tidx_scan AS index_scans,\n\t\t\tidx_tup_read AS tuples_read,\n\t\t\tidx_tup_fetch AS tuples_fetched,\n\t\t\ta.amname AS index_type,\n\t\t\tarray_to_string(array_agg(pg_catalog.pg_get_indexdef(idx.indexrelid, k + 1, true)), ', ') AS column_names\n\t\tFROM pg_stat_user_indexes ui\n\t\tJOIN pg_index idx ON ui.indexrelid = idx.indexrelid\n\t\tJOIN pg_class i ON idx.indexrelid = i.oid\n\t\tJOIN pg_class c ON idx.indrelid = c.oid\n\t\tJOIN pg_am a ON i.relam = a.oid\n\t\tJOIN pg_namespace n ON c.relnamespace = n.oid,\n\t\tgenerate_series(0, subarray(idx.indkey, 0, idx.indnkeyatts)::int[] - 1) AS k\n\t\tWHERE c.relname = '" ++ s ++ "'\n\t\tAND n.nspname = 'public'\n\t\tGROUP BY i.relname, ui.idx_scan, ui.idx_tup_read, ui.idx_tup_fetch, a.amname\n\t\tORDER BY i.relname;"

/-- One statement of the table-statistics builders (Go literal with %s filled by the escaped table name). -/
def pgTableIOQuery (s : String) : String :=
  "SELECT \n\t\t\t\tseq_scan AS sequential_scans,\n\t\t\t\tseq_tup_read AS sequential_tuples_read,\n\t\t\t\tidx_scan AS index_scans,\n\t\t\t\tidx_tup_fetch AS index_tuples_fetched,\n\t\t\t\tn_tup_ins AS tuples_inserted,\n\t\t\t\tn_tup_upd AS tuples_updated,\n\t\t\t\tn_tup_del AS tuples_deleted,\n\t\t\t\tn_tup_hot_upd AS hot_updates,\n\t\t\t\tn_live_tup AS live_tuples,\n\t\t\t\tn_dead_tup AS dead_tuples,\n\t\t\t\tvacuum_count,\n\t\t\t\tautovacuum_count,\n\t\t\t\tanalyze_count,\n\t\t\t\tautoanalyze_count\n\t\t\tFROM pg_stat_user_tables\n\t\t\tWHERE relname = '" ++ s ++ "';"

/-- One statement of the table-statistics builders (Go literal with %s filled by the escaped table name). -/
def pgTableBloatQuery (s : String) : String :=
  "SELECT \n\t\t\t\tcurrent_database() AS db, schemaname, tblname, \n\t\t\t\tbs*tblpages AS real_size,\n\t\t\t\t(tblpages-est_tblpages)*bs AS extra_size,\n\t\t\t\tCASE WHEN tblpages > 0\n\t\t\t\t\tTHEN 100 * (tblpages-est_tblpages)/tblpages::float\n\t\t\t\t\tELSE 0\n\t\t\t\tEND AS extra_ratio, fillfactor,\n\t\t\t\tCASE WHEN tblpages > 0 AND tblpages-est_tblpages > 0\n\t\t\t\t\tTHEN (bs*(tblpages-est_tblpages)/(tblpages)::float)\n\t\t\t\t\tELSE 0\n\t\t\t\tEND AS bloat_size,\n\t\t\t\tCASE WHEN tblpages > 0 AND tblpages-est_tblpages > 0\n\t\t\t\t\tTHEN pg_size_pretty((bs*(tblpages-est_tblpages))::bigint)\n\t\t\t\t\tELSE ''\n\t\t\t\tEND AS bloat_size_pretty,\n\t\t\t\tis_na\n\t\t\tFROM (\n\t\t\t\tSELECT\n\t\t\t\t\tceil(reltuples/((bs-page_hdr)/tpl_size)) + ceil(toasttuples/4) AS est_tblpages,\n\t\t\t\t\ttblpages, fillfactor, bs, tblid, schemaname, tblname, heappages, toastpages, is_na\n\t\t\t\tFROM (\n\t\t\t\t\tSELECT\n\t\t\t\t\t\t( 4 + tpl_hdr_size + tpl_data_size + (2*ma)\n\t\t\t\t\t\t\t- CASE WHEN tpl_hdr_size%ma = 0 THEN ma ELSE tpl_hdr_size%ma END\n\t\t\t\t\t\t\t- CASE WHEN ceil(tpl_data_size)::int%ma = 0 THEN ma ELSE ceil(tpl_data_size)::int%ma END\n\t\t\t\t\t\t) AS tpl_size, bs - page_hdr AS size_per_block, (heappages + toastpages) AS tblpages, heappages,\n\t\t\t\t\t\ttoastpages, reltuples, toasttuples, bs, page_hdr, tblid, schemaname, tblname, fillfactor, is_na\n\t\t\t\t\tFROM (\n\t\t\t\t\t\tSELECT\n\t\t\t\t\t\t\ttbl.oid AS tblid, ns.nspname AS schemaname, tbl.relname AS tblname, tbl.reltuples,\n\t\t\t\t\t\t\ttbl.relpages AS heappages, coalesce(toast.relpages, 0) AS toastpages,\n\t\t\t\t\t\t\tcoalesce(toast.reltuples, 0) AS toasttuples,\n\t\t\t\t\t\t\tcoalesce(substring(\n\t\t\t\t\t\t\t\tarray_to_string(tbl.reloptions, ' ')\n\t\t\t\t\t\t\t\tFROM 'fillfactor=([0-9]+)')::smallint, 100) AS fillfactor,\n\t\t\t\t\t\t\tcurrent_setting('block_size')::numeric AS bs,\n\t\t\t\t\t\t\tCASE WHEN version()~'mingw32' OR version()~'64-bit|x86_64|ppc64|ia64|amd64' THEN 8 ELSE 4 END AS ma,\n\t\t\t\t\t\t\t24 AS page_hdr,\n\t\t\t\t\t\t\t23 + CASE WHEN MAX(coalesce(s.null_frac,0)) > 0 THEN ( 7 + count(*) ) / 8 ELSE 0::int END\n\t\t\t\t\t\t\t\t+ CASE WHEN tbl.relhasoids THEN 4 ELSE 0 END AS tpl_hdr_size,\n\t\t\t\t\t\t\tsum( (1-coalesce(s.null_frac, 0)) * coalesce(s.avg_width, 1024) ) AS tpl_data_size,\n\t\t\t\t\t\t\tbool_or(att.atttypid = 'pg_catalog.name'::regtype) AS is_na\n\t\t\t\t\t\tFROM pg_attribute AS att\n\t\t\t\t\t\t\tJOIN pg_class AS tbl ON att.attrelid = tbl.oid\n\t\t\t\t\t\t\tJOIN pg_namespace AS ns ON ns.oid = tbl.relnamespace\n\t\t\t\t\t\t\tLEFT JOIN pg_stats AS s ON s.schemaname=ns.nspname\n\t\t\t\t\t\t\t\tAND s.tablename = tbl.relname AND s.inherited=false AND s.attname=att.attname\n\t\t\t\t\t\t\tLEFT JOIN pg_class AS toast ON tbl.reltoastrelid = toast.oid\n\t\t\t\t\t\tWHERE NOT att.attisdropped\n\t\t\t\t\t\t\tAND tbl.relkind = 'r'\n\t\t\t\t\t\t\tAND ns.nspname = 'public'\n\t\t\t\t\t\t\tAND tbl.relname = '" ++ s ++ "'\n\t\t\t\t\t\tGROUP BY 1,2,3,4,5,6,7,8,9,10\n\t\t\t\t\t) AS s\n\t\t\t\t) AS s2\n\t\t\t) AS s3;"

/-- One statement of the table-statistics builders (Go literal with %s filled by the escaped table name). -/
def myTableSizeQuery (s : String) : String :=
  "SELECT \n\t\t\ttable_name,\n\t\t\tengine,\n\t\t\ttable_rows,\n\t\t\tavg_row_length,\n\t\t\tROUND(data_length / 1024 / 1024, 2) AS data_size_mb,\n\t\t\tROUND(index_length / 1024 / 1024, 2) AS index_size_mb,\n\t\t\tROUND((data_length + index_length) / 1024 / 1024, 2) AS total_size_mb\n\t\tFROM information_schema.tables\n\t\tWHERE table_schema = DATABASE()\n\t\tAND table_name = '" ++ s ++ "';"

/-- One statement of the table-statistics builders (Go literal with %s filled by the escaped table name). -/
def myTableColumnsQuery (s : String) : String :=
  "SELECT \n\t\t\tcolumn_name,\n\t\t\tcolumn_type,\n\t\t\tis_nullable,\n\t\t\tcolumn_key,\n\t\t\tcolumn_default,\n\t\t\textra\n\t\tFROM information_schema.columns\n\t\tWHERE table_schema = DATABASE()\n\t\tAND table_name = '" ++ s ++ "'\n\t\tORDER BY ordinal_position;"

/-- One statement of the table-statistics builders (Go literal with %s filled by the escaped table name). -/
def myTableIndexQuery (s : String) : String :=
  "SELECT \n\t\t\tindex_name,\n\t\t\tcolumn_name,\n\t\t\tseq_in_index,\n\t\t\tnon_unique,\n\t\t\tCASE \n\t\t\t\tWHEN index_type = 'FULLTEXT' THEN 'FULLTEXT'\n\t\t\t\tWHEN index_name = 'PRIMARY' THEN 'PRIMARY'\n\t\t\t\tWHEN non_unique = 0 THEN 'UNIQUE'\n\t\t\t\tELSE 'INDEX'\n\t\t\tEND AS index_type\n\t\tFROM information_schema.statistics\n\t\tWHERE table_schema = DATABASE()\n\t\tAND table_name = '" ++ s ++ "'\n\t\tORDER BY index_name, seq_in_index;"

/-- One statement of the table-statistics builders (Go literal with %s filled by the escaped table name). -/
def myTableStatusQuery (s : String) : String :=
  "SHOW TABLE STATUS LIKE '" ++ s ++ "';"

/-- One statement of the table-statistics builders (Go literal with %s filled by the escaped table name). -/
def myIndexStatsQuery (s : String) : String :=
  "SELECT \n\t\t\t\tindex_name,\n\t\t\t\tstat_name,\n\t\t\t\tstat_value\n\t\t\tFROM mysql.index_stats\n\t\t\tWHERE table_name = '" ++ s ++ "'\n\t\t\tORDER BY index_name, stat_name;"

/-- One statement of the table-statistics builders (Go literal with %s filled by the escaped table name). -/
def myTableIOQuery (s : String) : String :=
  "SELECT \n\t\t\t\ttable_schema,\n\t\t\t\ttable_name,\n\t\t\t\trows_read,\n\t\t\t\trows_inserted,\n\t\t\t\trows_updated,\n\t\t\t\trows_deleted\n\t\t\tFROM information_schema.table_statistics\n\t\t\tWHERE table_schema = DATABASE()\n\t\t\tAND table_name = '" ++ s ++ "';"

/-- getPostgresTableStatsQueries from src/unnamed/part_002: single quotes in
the table name are doubled, then interpolated into each statement. -/
def getPostgresTableStatsQueries (tableName : String) (detailed : Bool) : List String :=
  let safeTableName := goReplaceChar tableName '\'' "''"
  let queries := [pgTableSizeQuery safeTableName, pgTableColumnsQuery safeTableName,
    pgTableIndexQuery safeTableName]
  if detailed then
    queries ++ [pgTableIOQuery safeTableName, pgTableBloatQuery safeTableName]
  else queries

/-- getMySQLTableStatsQueries from src/unnamed/part_002.  NOTE (faithful to
the source): backticks are doubled although every interpolation site is a
single-quoted SQL literal. -/
def getMySQLTableStatsQueries (tableName : String) (detailed : Bool) : List String :=
  let safeTableName := goReplaceChar tableName '`' "``"
  let queries := [myTableSizeQuery safeTableName, myTableColumnsQuery safeTableName,
    myTableIndexQuery safeTableName]
  if detailed then
    queries ++ [myTableStatusQuery safeTableName, myIndexStatsQuery safeTableName,
      myTableIOQuery safeTableName]
  else queries


/-! ## CapabilityDispatcher: tool handlers

Each `HandleRequest` takes the already-extracted request parameters
(`Option` for an optional parameter, with the Go default applied inside),
the result of the external `GetDatabaseType` collaborator for the target
connection, and the executor oracle.  `createTextResponse` wraps the text
unchanged and is modelled as the text itself. -/

/-- GenericSQLTool.HandleRequest (ExecuteSQL) from src/unnamed/part_000.
The SQL parameter sequence is passed through to the executor unchanged and is
elided here.  When `isQuery` is absent the statement is auto-classified from
its text. -/
def GenericSQLTool.HandleRequest (sql targetDbID : String) (isQueryP : Option Bool)
    (exec : ExecFn) : HandlerResult :=
  let isQuery : Bool :=
    match isQueryP with
    | some b => b
    | none =>
        let sqlUpper := goTrimSpace (goToUpper sql)
        goHasPrefix sqlUpper "SELECT" || goHasPrefix sqlUpper "SHOW" ||
        goHasPrefix sqlUpper "DESCRIBE" || goHasPrefix sqlUpper "EXPLAIN"
  match exec isQuery sql with
  | .error e => (.error e, [(isQuery, sql)])
  | .ok result => (.ok result, [(isQuery, sql)])

/-- GetIndexesTool.HandleRequest from src/unnamed/part_001. -/
def GetIndexesTool.HandleRequest (getDatabaseType : Except String String)
    (targetDbID : String) (tableP : Option String) (detailedP : Option Bool)
    (exec : ExecFn) : HandlerResult :=
  let tableName := tableP.getD ""
  let detailed := detailedP.getD false
  match getDatabaseType with
  | .error e => (.error ("failed to get database type: " ++ e), [])
  | .ok dbType =>
    let queryE : Except String String :=
      if goToLower dbType == "postgres" then .ok (getPostgresIndexesQuery tableName detailed)
      else if goToLower dbType == "mysql" then .ok (getMySQLIndexesQuery tableName detailed)
      else .error ("unsupported database type for indexes: " ++ dbType)
    match queryE with
    | .error e => (.error e, [])
    | .ok query =>
      match exec true query with
      | .error e => (.error ("failed to get indexes: " ++ e), [(true, query)])
      | .ok result =>
        let header :=
          if tableName == "" then "# All Indexes in Database " ++ targetDbID ++ "\n\n"
          else "# Indexes for Table " ++ tableName ++ " in Database " ++ targetDbID ++ "\n\n"
        (.ok (header ++ result), [(true, query)])

/-- GetConstraintsTool.HandleRequest from get_constraints_tool.go. -/
def GetConstraintsTool.HandleRequest (getDatabaseType : Except String String)
    (targetDbID : String) (tableP typeP : Option String)
    (exec : ExecFn) : HandlerResult :=
  let tableName := tableP.getD ""
  let constraintType := typeP.getD ""
  match getDatabaseType with
  | .error e => (.error ("failed to get database type: " ++ e), [])
  | .ok dbType =>
    let queryE : Except String String :=
      if goToLower dbType == "postgres" then .ok (getPostgresConstraintsQuery tableName constraintType)
      else if goToLower dbType == "mysql" then .ok (getMySQLConstraintsQuery tableName constraintType)
      else .error ("unsupported database type for constraints: " ++ dbType)
    match queryE with
    | .error e => (.error e, [])
    | .ok query =>
      match exec true query with
      | .error e => (.error ("failed to get constraints: " ++ e), [(true, query)])
      | .ok result =>
        let header :=
          if tableName == "" then
            if constraintType == "" then "# All Constraints in Database " ++ targetDbID ++ "\n\n"
            else "# " ++ constraintType ++ " Constraints in Database " ++ targetDbID ++ "\n\n"
          else
            if constraintType == "" then
              "# All Constraints for Table " ++ tableName ++ " in Database " ++ targetDbID ++ "\n\n"
            else
              "# " ++ constraintType ++ " Constraints for Table " ++ tableName ++ " in Database " ++ targetDbID ++ "\n\n"
        (.ok (header ++ result), [(true, query)])

/-- GetViewsTool.HandleRequest from src/unnamed/part_003. -/
def GetViewsTool.HandleRequest (getDatabaseType : Except String String)
    (targetDbID : String) (viewP : Option String) (includeDefinitionP : Option Bool)
    (exec : ExecFn) : HandlerResult :=
  let viewName := viewP.getD ""
  let includeDefinition := includeDefinitionP.getD true
  match getDatabaseType with
  | .error e => (.error ("failed to get database type: " ++ e), [])
  | .ok dbType =>
    let queryE : Except String String :=
      if goToLower dbType == "postgres" then .ok (getPostgresViewsQuery viewName includeDefinition)
      else if goToLower dbType == "mysql" then .ok (getMySQLViewsQuery viewName includeDefinition)
      else .error ("unsupported database type for views: " ++ dbType)
    match queryE with
    | .error e => (.error e, [])
    | .ok query =>
      match exec true query with
      | .error e => (.error ("failed to get views: " ++ e), [(true, query)])
      | .ok result =>
        let header :=
          if viewName == "" then "# All Views in Database " ++ targetDbID ++ "\n\n"
          else "# View Definition for " ++ viewName ++ " in Database " ++ targetDbID ++ "\n\n"
        (.ok (header ++ result), [(true, query)])

/-- GetTypesTool.HandleRequest from src/unnamed/part_002.  The mysql branch
returns a fixed informational text and never reaches the executor. -/
def GetTypesTool.HandleRequest (getDatabaseType : Except String String)
    (targetDbID : String) (typeP : Option String) (exec : ExecFn) : HandlerResult :=
  let typeName := typeP.getD ""
  match getDatabaseType with
  | .error e => (.error ("failed to get database type: " ++ e), [])
  | .ok dbType =>
    if goToLower dbType == "postgres" then
      let query := getPostgresTypesQuery typeName
      match exec true query with
      | .error e => (.error ("failed to get custom data types: " ++ e), [(true, query)])
      | .ok result =>
        let header :=
          if typeName == "" then "# All Custom Data Types in Database " ++ targetDbID ++ "\n\n"
          else "# Custom Data Type Definition for " ++ typeName ++ " in Database " ++ targetDbID ++ "\n\n"
        (.ok (header ++ result), [(true, query)])
    else if goToLower dbType == "mysql" then
      (.ok "MySQL does not support custom data types in the same way as PostgreSQL. It only has built-in data types.", [])
    else
      (.error ("unsupported database type for custom data types: " ++ dbType), [])

/-- GetSchemasTool.HandleRequest from get_schemas_tool.go. -/
def GetSchemasTool.HandleRequest (getDatabaseType : Except String String)
    (targetDbID : String) (schemaP : Option String) (includeSystemP : Option Bool)
    (exec : ExecFn) : HandlerResult :=
  let schemaName := schemaP.getD ""
  let includeSystemSchemas := includeSystemP.getD false
  match getDatabaseType with
  | .error e => (.error ("failed to get database type: " ++ e), [])
  | .ok dbType =>
    let queryE : Except String String :=
      if goToLower dbType == "postgres" then .ok (getPostgresSchemasQuery schemaName includeSystemSchemas)
      else if goToLower dbType == "mysql" then .ok (getMySQLSchemasQuery schemaName)
      else .error ("unsupported database type for schemas: " ++ dbType)
    match queryE with
    | .error e => (.error e, [])
    | .ok query =>
      match exec true query with
      | .error e => (.error ("failed to get schemas: " ++ e), [(true, query)])
      | .ok result =>
        let header :=
          if schemaName == "" then "# All Schemas in Database " ++ targetDbID ++ "\n\n"
          else "# Schema Information for " ++ schemaName ++ " in Database " ++ targetDbID ++ "\n\n"
        (.ok (header ++ result), [(true, query)])

/-- GetSampleDataTool.HandleRequest from get_sample_data_tool.go.  No
unsupported-dialect branch exists: any dialect reaches the builder. -/
def GetSampleDataTool.HandleRequest (getDatabaseType : Except String String)
    (targetDbID tableName : String) (limitP : Option Int)
    (whereP orderByP : Option String) (randomP : Option Bool)
    (exec : ExecFn) : HandlerResult :=
  let limit := limitP.getD 10
  let whereClause := whereP.getD ""
  let orderByClause := orderByP.getD ""
  let random := randomP.getD false
  match getDatabaseType with
  | .error e => (.error ("failed to get database type: " ++ e), [])
  | .ok dbType =>
    let query := buildSampleDataQuery dbType tableName limit whereClause orderByClause random
    match exec true query with
    | .error e => (.error ("failed to get sample data: " ++ e), [(true, query)])
    | .ok result =>
      (.ok ("# Sample Data from Table " ++ tableName ++ " in Database " ++ targetDbID
          ++ "\n\n" ++ result), [(true, query)])

/-- GetUniqueValuesTool.HandleRequest from src/unnamed/part_003.  No
unsupported-dialect branch exists: any dialect reaches the builder. -/
def GetUniqueValuesTool.HandleRequest (getDatabaseType : Except String String)
    (targetDbID tableName columnName : String) (limitP : Option Int)
    (whereP : Option String) (includeCountsP includeNullsP : Option Bool)
    (exec : ExecFn) : HandlerResult :=
  let limit := limitP.getD 100
  let whereClause := whereP.getD ""
  let includeCounts := includeCountsP.getD true
  let includeNulls := includeNullsP.getD true
  match getDatabaseType with
  | .error e => (.error ("failed to get database type: " ++ e), [])
  | .ok dbType =>
    let query := buildUniqueValuesQuery dbType tableName columnName limit whereClause includeCounts includeNulls
    match exec true query with
    | .error e => (.error ("failed to get unique values: " ++ e), [(true, query)])
    | .ok result =>
      (.ok ("# Unique Values in Column " ++ columnName ++ " of Table " ++ tableName
          ++ " in Database " ++ targetDbID ++ "\n\n" ++ result), [(true, query)])

/-! ## Multi-statement statistics handlers and their aggregation loop -/

/-- One section of the aggregated statistics report: the Go loop body.  On an
executor error it embeds `Error executing query:` with the statement and the
error and continues; on success it appends the result. -/
def statsSection (exec : ExecFn) (q : String) : String :=
  match exec true q with
  | .error e => "Error executing query: " ++ q ++ "\n" ++ e ++ "\n\n"
  | .ok result => result ++ "\n\n"

/-- The Go for-loop over the statement list, accumulating into the report
builder. -/
def statsResultsFrom (exec : ExecFn) (acc : String) : List String → String
  | [] => acc
  | q :: rest => statsResultsFrom exec (acc ++ statsSection exec q) rest

/-- The statement list the DbStats dialect switch selects (none on an
unsupported dialect). -/
def dbStatsQueriesFor (dbType : String) (detailed : Bool) : Option (List String) :=
  if goToLower dbType == "postgres" then some (getPostgresStatsQueries detailed)
  else if goToLower dbType == "mysql" then some (getMySQLStatsQueries detailed)
  else none

/-- DbStatsTool.HandleRequest (GetStats) from db_stats_tool.go: executes every
selected statement in order, embedding per-statement errors inline, and always
returns success once the dialect switch passes. -/
def DbStatsTool.HandleRequest (getDatabaseType : Except String String)
    (targetDbID : String) (detailedP : Option Bool) (exec : ExecFn) : HandlerResult :=
  let detailed := detailedP.getD false
  match getDatabaseType with
  | .error e => (.error ("failed to get database type: " ++ e), [])
  | .ok dbType =>
    match dbStatsQueriesFor dbType detailed with
    | none => (.error ("unsupported database type for statistics: " ++ dbType), [])
    | some queries =>
      let header := "# Database Statistics for " ++ targetDbID ++ " (" ++ dbType ++ ")\n\n"
      (.ok (statsResultsFrom exec header queries), queries.map (fun q => (true, q)))

/-- The statement list the TableStats dialect switch selects. -/
def tableStatsQueriesFor (dbType tableName : String) (detailed : Bool) : Option (List String) :=
  if goToLower dbType == "postgres" then some (getPostgresTableStatsQueries tableName detailed)
  else if goToLower dbType == "mysql" then some (getMySQLTableStatsQueries tableName detailed)
  else none

/-- TableStatsTool.HandleRequest (GetTableStats) from src/unnamed/part_002:
same aggregation loop as DbStats. -/
def TableStatsTool.HandleRequest (getDatabaseType : Except String String)
    (targetDbID tableName : String) (detailedP : Option Bool) (exec : ExecFn) : HandlerResult :=
  let detailed := detailedP.getD false
  match getDatabaseType with
  | .error e => (.error ("failed to get database type: " ++ e), [])
  | .ok dbType =>
    match tableStatsQueriesFor dbType tableName detailed with
    | none => (.error ("unsupported database type for table statistics: " ++ dbType), [])
    | some queries =>
      let header := "# Table Statistics for " ++ targetDbID ++ "." ++ tableName ++ "\n\n"
      (.ok (statsResultsFrom exec header queries), queries.map (fun q => (true, q)))

/-! ## Auxiliary definitions used only to state and witness properties -/

/-- Remainder of the list from the first contiguous occurrence of `pat`
(none when `pat` does not occur). -/
def dropToSubChars : List Char → List Char → Option (List Char)
  | [], pat => if pat.isEmpty then some [] else none
  | c :: cs, pat =>
      if hasPrefixChars (c :: cs) pat then some (c :: cs)
      else dropToSubChars cs pat

/-- Suffix of `s` starting at the first occurrence of `pat`. -/
def strFromSub (s pat : String) : Option String :=
  (dropToSubChars s.data pat.data).map (fun l => ⟨l⟩)

/-- Specification-side classification of free-form SQL: the statement text,
whitespace-trimmed, begins case-insensitively with SELECT, SHOW, DESCRIBE or
EXPLAIN. -/
def specIsQueryPrefix (sql : String) : Bool :=
  ["SELECT", "SHOW", "DESCRIBE", "EXPLAIN"].any
    (fun p => goHasPrefix (goToUpper (goTrimSpace sql)) p)

/-- Filter block of the unique-values query: the caller WHERE fragment and the
NULL-exclusion clause, exactly as the builder appends them. -/
def uniqueValuesFilter (dbType columnName whereClause : String) (includeNulls : Bool) : String :=
  (if whereClause != "" then " WHERE " ++ whereClause else "")
  ++ (if !includeNulls then
        (if whereClause == "" then " WHERE " ++ safeIdent dbType columnName ++ " IS NOT NULL"
         else " AND " ++ safeIdent dbType columnName ++ " IS NOT NULL")
      else "")

/-- Projection head of the PostgreSQL views query with the definition column. -/
def pgViewsProjDef : String :=
  "\nSELECT \n    schemaname AS schema_name,\n    viewname AS view_name,\n    definition AS view_definition"

/-- Projection head of the PostgreSQL views query with the placeholder column. -/
def pgViewsProjNoDef : String :=
  "\nSELECT \n    schemaname AS schema_name,\n    viewname AS view_name,\n    'Definition not included' AS view_definition"

/-- Shared FROM/WHERE block of both PostgreSQL views projections. -/
def pgViewsFromWhere : String :=
  "\nFROM pg_catalog.pg_views\nWHERE schemaname NOT IN ('pg_catalog', 'information_schema')"

/-- A first concrete configuration for the registry witness. -/
def c5cfgA : DatabaseConnectionConfig :=
  ⟨"db1", "postgres", "localhost", 5432, "admin", "secret", "app", "primary"⟩

/-- A second configuration under the same ID. -/
def c5cfgB : DatabaseConnectionConfig :=
  ⟨"db1", "mysql", "remote", 3306, "root", "other", "app2", "replacement"⟩

/-- Concrete executor failing exactly on the second database-statistics
statement. -/
def c1execS : ExecFn := fun _ q =>
  if q == (getPostgresStatsQueries false).getD 1 "" then .error "boom" else .ok "OK"

/-- Concrete executor failing exactly on the first table-statistics statement. -/
def c1execT : ExecFn := fun _ q =>
  if q == (getPostgresTableStatsQueries "users" false).getD 0 "" then .error "crash"
  else .ok "OK"

/-! ## General lemmas about the string helpers -/

theorem char_toNat_ofNat (n : Nat) (h : n < 55296) : (Char.ofNat n).toNat = n := by
  unfold Char.ofNat
  split
  · rfl
  · next hh => exact absurd (Or.inl h) hh

theorem goIsSpace_goToUpperChar (c : Char) : goIsSpace (goToUpperChar c) = goIsSpace c := by
  unfold goToUpperChar
  by_cases h : (97 ≤ c.toNat && c.toNat ≤ 122) = true
  · rw [if_pos h]
    simp only [Bool.and_eq_true, decide_eq_true_eq] at h
    have hv : (Char.ofNat (c.toNat - 32)).toNat = c.toNat - 32 :=
      char_toNat_ofNat _ (by omega)
    have ha : goIsSpace (Char.ofNat (c.toNat - 32)) = false := by
      simp only [goIsSpace, hv, Bool.or_eq_false_iff, beq_eq_false_iff_ne, ne_eq]
      omega
    have hb : goIsSpace c = false := by
      simp only [goIsSpace, Bool.or_eq_false_iff, beq_eq_false_iff_ne, ne_eq]
      omega
    rw [ha, hb]
  · rw [if_neg h]

theorem dropWhile_map_goToUpperChar (l : List Char) :
    (l.map goToUpperChar).dropWhile goIsSpace = (l.dropWhile goIsSpace).map goToUpperChar := by
  induction l with
  | nil => rfl
  | cons c cs ih =>
      simp only [List.map_cons, List.dropWhile_cons, goIsSpace_goToUpperChar]
      by_cases h : goIsSpace c = true
      · simp [h, ih]
      · simp [h]

/-- Uppercasing commutes with whitespace trimming: the Go expression
TrimSpace(ToUpper(sql)) the classifier computes equals ToUpper(TrimSpace(sql)),
the form the specification describes. -/
theorem goTrimSpace_goToUpper (s : String) :
    goTrimSpace (goToUpper s) = goToUpper (goTrimSpace s) := by
  unfold goTrimSpace goToUpper
  congr 1
  rw [dropWhile_map_goToUpperChar, ← List.map_reverse, dropWhile_map_goToUpperChar,
    ← List.map_reverse]

theorem string_foldl_append (l : List String) (a : String) :
    l.foldl (fun r s => r ++ s) a = a ++ l.foldl (fun r s => r ++ s) "" := by
  induction l generalizing a with
  | nil => simp [List.foldl]
  | cons x xs ih =>
      rw [List.foldl_cons, List.foldl_cons, ih (a ++ x), ih ("" ++ x)]
      simp [String.append_assoc]

theorem string_join_cons (s : String) (l : List String) :
    String.join (s :: l) = s ++ String.join l := by
  show List.foldl (fun r t => r ++ t) "" (s :: l) = s ++ String.join l
  rw [List.foldl_cons, string_foldl_append]
  rfl

/-- The statistics report loop is the concatenation of the per-statement
sections, in emission order. -/
theorem statsResultsFrom_eq (exec : ExecFn) (acc : String) (qs : List String) :
    statsResultsFrom exec acc qs = acc ++ String.join (qs.map (statsSection exec)) := by
  induction qs generalizing acc with
  | nil => simp [statsResultsFrom, String.join]
  | cons q rest ih =>
      rw [statsResultsFrom, ih, List.map_cons, string_join_cons]
      simp [String.append_assoc]

theorem getD_map_statsSection (exec : ExecFn) (qs : List String) (i : Nat)
    (h : i < qs.length) :
    (qs.map (statsSection exec)).getD i "" = statsSection exec (qs.getD i "") := by
  rw [List.getD_eq_getElem?_getD, List.getD_eq_getElem?_getD, List.getElem?_map,
    List.getElem?_eq_getElem h]
  rfl

/-- The sample-data handler always passes exactly the built query to
ExecuteQuery (once the dialect is resolved). -/
theorem sampleData_trace (dbType targetDbID tableName : String) (limP : Option Int)
    (wP oP : Option String) (rP : Option Bool) (exec : ExecFn) :
    (GetSampleDataTool.HandleRequest (.ok dbType) targetDbID tableName limP wP oP rP exec).2
      = [(true, buildSampleDataQuery dbType tableName (limP.getD 10) (wP.getD "")
            (oP.getD "") (rP.getD false))] := by
  simp only [GetSampleDataTool.HandleRequest]
  cases h : exec true (buildSampleDataQuery dbType tableName (limP.getD 10) (wP.getD "")
      (oP.getD "") (rP.getD false)) <;> simp [h]

/-- The unique-values handler always passes exactly the built query to
ExecuteQuery (once the dialect is resolved). -/
theorem uniqueValues_trace (dbType targetDbID tableName columnName : String)
    (limP : Option Int) (wP : Option String) (icP inP : Option Bool) (exec : ExecFn) :
    (GetUniqueValuesTool.HandleRequest (.ok dbType) targetDbID tableName columnName
        limP wP icP inP exec).2
      = [(true, buildUniqueValuesQuery dbType tableName columnName (limP.getD 100)
            (wP.getD "") (icP.getD true) (inP.getD true))] := by
  simp only [GetUniqueValuesTool.HandleRequest]
  cases h : exec true (buildUniqueValuesQuery dbType tableName columnName (limP.getD 100)
      (wP.getD "") (icP.getD true) (inP.getD true)) <;> simp [h]

/-- Shape of the sample-data query when random ordering is requested. -/
theorem buildSampleDataQuery_random (dbType tableName : String) (limit : Int)
    (whereClause orderByClause : String) :
    buildSampleDataQuery dbType tableName limit whereClause orderByClause true
      = ("SELECT * FROM " ++ safeIdent dbType tableName
          ++ (if whereClause != "" then " WHERE " ++ whereClause else ""))
        ++ ((if goToLower dbType == "postgres" then " ORDER BY RANDOM()"
              else " ORDER BY RAND()")
          ++ (" LIMIT " ++ toString limit)) := by
  unfold buildSampleDataQuery
  by_cases hw : (whereClause != "") = true <;>
    by_cases hd : (goToLower dbType == "postgres") = true <;>
      simp [hw, hd, String.append_assoc]

/-- Shape of the sample-data query when an explicit ORDER BY is used. -/
theorem buildSampleDataQuery_orderBy (dbType tableName : String) (limit : Int)
    (whereClause orderByClause : String) (ho : (orderByClause != "") = true) :
    buildSampleDataQuery dbType tableName limit whereClause orderByClause false
      = ("SELECT * FROM " ++ safeIdent dbType tableName
          ++ (if whereClause != "" then " WHERE " ++ whereClause else ""))
        ++ ((" ORDER BY " ++ orderByClause) ++ (" LIMIT " ++ toString limit)) := by
  unfold buildSampleDataQuery
  by_cases hw : (whereClause != "") = true <;> simp [hw, ho, String.append_assoc]

/-- Shape of the unique-values query when counts are not requested. -/
theorem buildUniqueValuesQuery_distinct (dbType tableName columnName : String)
    (limit : Int) (whereClause : String) (includeNulls : Bool) :
    buildUniqueValuesQuery dbType tableName columnName limit whereClause false includeNulls
      = (("SELECT DISTINCT " ++ safeIdent dbType columnName ++ " FROM "
            ++ safeIdent dbType tableName)
          ++ uniqueValuesFilter dbType columnName whereClause includeNulls)
        ++ ((" ORDER BY " ++ safeIdent dbType columnName) ++ (" LIMIT " ++ toString limit)) := by
  unfold buildUniqueValuesQuery uniqueValuesFilter
  by_cases hw : whereClause = "" <;> by_cases hn : includeNulls = true <;>
    simp [hw, hn, bne_iff_ne, beq_iff_eq, String.append_assoc]

/-! ## Claims -/

/-- C1: for GetStats and GetTableStats, when the builder emits N statements
and exactly statement k fails during execution, the report is the header
followed by the N per-statement sections joined in builder-emission order,
section k is the inline error marker (the text Error executing query: with the
statement and the error), every other section is the statement's normal
result, and the call itself returns success. -/
theorem c1_stats_partial_failure
    (targetDbID tableName dbType : String) (dP tP : Option Bool)
    (execS execT : ExecFn) (qsS qsT : List String) (k j : Nat) (e1 e2 : String)
    (resS resT : Nat → String)
    (hqS : dbStatsQueriesFor dbType (dP.getD false) = some qsS)
    (hkS : k < qsS.length)
    (hfS : execS true (qsS.getD k "") = .error e1)
    (hoS : ∀ i, i < qsS.length → i ≠ k → execS true (qsS.getD i "") = .ok (resS i))
    (hqT : tableStatsQueriesFor dbType tableName (tP.getD false) = some qsT)
    (hkT : j < qsT.length)
    (hfT : execT true (qsT.getD j "") = .error e2)
    (hoT : ∀ i, i < qsT.length → i ≠ j → execT true (qsT.getD i "") = .ok (resT i)) :
    ((DbStatsTool.HandleRequest (.ok dbType) targetDbID dP execS).1
        = .ok ("# Database Statistics for " ++ targetDbID ++ " (" ++ dbType ++ ")\n\n"
            ++ String.join (qsS.map (statsSection execS)))
      ∧ (qsS.map (statsSection execS)).length = qsS.length
      ∧ (qsS.map (statsSection execS)).getD k ""
          = "Error executing query: " ++ qsS.getD k "" ++ "\n" ++ e1 ++ "\n\n"
      ∧ (∀ i, i < qsS.length → i ≠ k →
          (qsS.map (statsSection execS)).getD i "" = resS i ++ "\n\n"))
  ∧ ((TableStatsTool.HandleRequest (.ok dbType) targetDbID tableName tP execT).1
        = .ok ("# Table Statistics for " ++ targetDbID ++ "." ++ tableName ++ "\n\n"
            ++ String.join (qsT.map (statsSection execT)))
      ∧ (qsT.map (statsSection execT)).length = qsT.length
      ∧ (qsT.map (statsSection execT)).getD j ""
          = "Error executing query: " ++ qsT.getD j "" ++ "\n" ++ e2 ++ "\n\n"
      ∧ (∀ i, i < qsT.length → i ≠ j →
          (qsT.map (statsSection execT)).getD i "" = resT i ++ "\n\n")) := by
  refine ⟨⟨?_, List.length_map _ _, ?_, ?_⟩, ⟨?_, List.length_map _ _, ?_, ?_⟩⟩
  · simp [DbStatsTool.HandleRequest, hqS, statsResultsFrom_eq]
  · rw [getD_map_statsSection execS qsS k hkS, statsSection, hfS]
  · intro i hi hne
    rw [getD_map_statsSection execS qsS i hi, statsSection, hoS i hi hne]
  · simp [TableStatsTool.HandleRequest, hqT, statsResultsFrom_eq]
  · rw [getD_map_statsSection execT qsT j hkT, statsSection, hfT]
  · intro i hi hne
    rw [getD_map_statsSection execT qsT i hi, statsSection, hoT i hi hne]

set_option maxRecDepth 20000 in
/-- Witness for C1: on the postgres statistics statements with an executor
failing exactly on statement 1, section 1 of the report is the inline error
marker. -/
theorem c1_stats_partial_failure_witness :
    ((getPostgresStatsQueries false).map (statsSection c1execS)).getD 1 ""
      = "Error executing query: " ++ (getPostgresStatsQueries false).getD 1 ""
        ++ "\n" ++ "boom" ++ "\n\n" :=
  (c1_stats_partial_failure "db1" "users" "postgres" none none c1execS c1execT
    (getPostgresStatsQueries false) (getPostgresTableStatsQueries "users" false)
    1 0 "boom" "crash" (fun _ => "OK") (fun _ => "OK")
    rfl (by decide) rfl
    (by
      intro i hi hne
      have h3 : (getPostgresStatsQueries false).length = 3 := rfl
      rw [h3] at hi
      interval_cases i
      · rfl
      · exact absurd rfl hne
      · rfl)
    rfl (by decide) rfl
    (by
      intro i hi hne
      have h3 : (getPostgresTableStatsQueries "users" false).length = 3 := rfl
      rw [h3] at hi
      interval_cases i
      · exact absurd rfl hne
      · rfl
      · rfl)).1.2.2.1

/-- C4: with isQuery absent, ExecuteSQL routes to the query executor exactly
when the SQL text, whitespace-trimmed, begins case-insensitively with SELECT,
SHOW, DESCRIBE or EXPLAIN, and otherwise to the statement executor; the
outcome is whatever that executor returns. -/
theorem c4_isquery_autodetect (sql targetDbID : String) (exec : ExecFn) :
    (GenericSQLTool.HandleRequest sql targetDbID none exec).1
      = exec (specIsQueryPrefix sql) sql
  ∧ (GenericSQLTool.HandleRequest sql targetDbID none exec).2
      = [(specIsQueryPrefix sql, sql)] := by
  have hcls : (goHasPrefix (goTrimSpace (goToUpper sql)) "SELECT" ||
      goHasPrefix (goTrimSpace (goToUpper sql)) "SHOW" ||
      goHasPrefix (goTrimSpace (goToUpper sql)) "DESCRIBE" ||
      goHasPrefix (goTrimSpace (goToUpper sql)) "EXPLAIN") = specIsQueryPrefix sql := by
    simp only [specIsQueryPrefix, goTrimSpace_goToUpper, List.any_cons, List.any_nil,
      Bool.or_false, Bool.or_assoc]
  constructor
  · simp only [GenericSQLTool.HandleRequest, hcls]
    cases h : exec (specIsQueryPrefix sql) sql <;> simp [h]
  · simp only [GenericSQLTool.HandleRequest, hcls]
    cases h : exec (specIsQueryPrefix sql) sql <;> simp [h]

/-- C6: GetSampleData with random set and no limit supplied generates, on a
mysql connection, SQL ending in ORDER BY RAND() LIMIT 10, and on a postgres
connection SQL ending in ORDER BY RANDOM() LIMIT 10 (10 being the default
limit), and executes exactly that statement. -/
theorem c6_sample_random_default_limit (targetDbID tableName : String)
    (wP oP : Option String) (exec : ExecFn) :
    (∃ pre, (GetSampleDataTool.HandleRequest (.ok "mysql") targetDbID tableName none wP oP
        (some true) exec).2 = [(true, pre ++ " ORDER BY RAND() LIMIT 10")])
  ∧ (∃ pre, (GetSampleDataTool.HandleRequest (.ok "postgres") targetDbID tableName none wP oP
        (some true) exec).2 = [(true, pre ++ " ORDER BY RANDOM() LIMIT 10")]) := by
  constructor
  · refine ⟨"SELECT * FROM " ++ safeIdent "mysql" tableName ++
      (if (wP.getD "") != "" then " WHERE " ++ (wP.getD "") else ""), ?_⟩
    rw [sampleData_trace]
    simp only [Option.getD_none, Option.getD_some]
    rw [buildSampleDataQuery_random]
    have hfin : ((if goToLower "mysql" == "postgres" then " ORDER BY RANDOM()"
          else " ORDER BY RAND()") ++ (" LIMIT " ++ toString (10 : Int)))
        = " ORDER BY RAND() LIMIT 10" := rfl
    rw [hfin]
  · refine ⟨"SELECT * FROM " ++ safeIdent "postgres" tableName ++
      (if (wP.getD "") != "" then " WHERE " ++ (wP.getD "") else ""), ?_⟩
    rw [sampleData_trace]
    simp only [Option.getD_none, Option.getD_some]
    rw [buildSampleDataQuery_random]
    have hfin : ((if goToLower "postgres" == "postgres" then " ORDER BY RANDOM()"
          else " ORDER BY RAND()") ++ (" LIMIT " ++ toString (10 : Int)))
        = " ORDER BY RANDOM() LIMIT 10" := rfl
    rw [hfin]

/-- C7: with include_counts false the unique-values query is SELECT DISTINCT
column FROM table, an optional WHERE block, ORDER BY the column and a LIMIT,
with no GROUP BY clause and no COUNT aggregate anywhere in the builder's own
text; the handler defaults the limit to 100 when it is not supplied. -/
theorem c7_unique_values_no_counts (dbType targetDbID tableName columnName wc : String)
    (includeNulls : Bool) (limit : Int) (exec : ExecFn) :
    buildUniqueValuesQuery dbType tableName columnName limit wc false includeNulls
      = (("SELECT DISTINCT " ++ safeIdent dbType columnName ++ " FROM "
            ++ safeIdent dbType tableName)
          ++ uniqueValuesFilter dbType columnName wc includeNulls)
        ++ ((" ORDER BY " ++ safeIdent dbType columnName) ++ (" LIMIT " ++ toString limit))
  ∧ (GetUniqueValuesTool.HandleRequest (.ok dbType) targetDbID tableName columnName none
        (some wc) (some false) (some includeNulls) exec).2
      = [(true, buildUniqueValuesQuery dbType tableName columnName 100 wc false includeNulls)]
  ∧ strContainsSub (buildUniqueValuesQuery "mysql" "users" "status" 100 "" false true)
      "GROUP BY" = false
  ∧ strContainsSub (buildUniqueValuesQuery "mysql" "users" "status" 100 "" false true)
      "COUNT" = false
  ∧ buildUniqueValuesQuery "mysql" "users" "status" 100 "" false true
      = "SELECT DISTINCT `status` FROM `users` ORDER BY `status` LIMIT 100" := by
  refine ⟨buildUniqueValuesQuery_distinct dbType tableName columnName limit wc includeNulls,
    ?_, rfl, rfl, rfl⟩
  rw [uniqueValues_trace]
  simp only [Option.getD_none, Option.getD_some]

/-- C10: with random set, the generated sample-data query is independent of
the caller's order_by parameter (the builder never consults it) and orders by
the dialect's random function; without random, a nonempty order_by appears as
the ORDER BY clause. -/
theorem c10_random_ignores_order_by (dbType tableName whereClause orderByClause : String)
    (limit : Int) :
    buildSampleDataQuery dbType tableName limit whereClause orderByClause true
      = buildSampleDataQuery dbType tableName limit whereClause "" true
  ∧ (∃ pre, buildSampleDataQuery dbType tableName limit whereClause orderByClause true
        = pre ++ ((if goToLower dbType == "postgres" then " ORDER BY RANDOM()"
            else " ORDER BY RAND()") ++ (" LIMIT " ++ toString limit)))
  ∧ (orderByClause ≠ "" →
      ∃ pre, buildSampleDataQuery dbType tableName limit whereClause orderByClause false
        = pre ++ ((" ORDER BY " ++ orderByClause) ++ (" LIMIT " ++ toString limit))) := by
  refine ⟨?_, ⟨_, buildSampleDataQuery_random dbType tableName limit whereClause orderByClause⟩, ?_⟩
  · rw [buildSampleDataQuery_random, buildSampleDataQuery_random]
  · intro ho
    exact ⟨_, buildSampleDataQuery_orderBy dbType tableName limit whereClause orderByClause
      (bne_iff_ne.mpr ho)⟩

/-- C5: registering a configuration then reading it back by its ID returns
exactly that configuration; re-registering under the same ID overwrites
(last-write-wins); reading an unregistered ID returns the not-found error. -/
theorem c5_registry_register_get (m : ConfigMap) (cfg cfg2 : DatabaseConnectionConfig)
    (id : String) (hid : cfg2.ID = cfg.ID) (hmiss : m id = none) :
    GetDatabaseConfig (RegisterDatabaseConfig m cfg) cfg.ID = .ok cfg
  ∧ GetDatabaseConfig (RegisterDatabaseConfig (RegisterDatabaseConfig m cfg) cfg2) cfg.ID
      = .ok cfg2
  ∧ GetDatabaseConfig m id = .error ("database configuration not found for ID: " ++ id) := by
  refine ⟨?_, ?_, ?_⟩
  · simp [GetDatabaseConfig, RegisterDatabaseConfig]
  · simp [GetDatabaseConfig, RegisterDatabaseConfig, hid]
  · simp [GetDatabaseConfig, hmiss]

/-- Witness for C5 at concrete configurations. -/
theorem c5_registry_register_get_witness :
    GetDatabaseConfig (RegisterDatabaseConfig emptyConfigs c5cfgA) c5cfgA.ID = .ok c5cfgA
  ∧ GetDatabaseConfig (RegisterDatabaseConfig (RegisterDatabaseConfig emptyConfigs c5cfgA) c5cfgB)
      c5cfgA.ID = .ok c5cfgB
  ∧ GetDatabaseConfig emptyConfigs "nope"
      = .error ("database configuration not found for ID: " ++ "nope") :=
  c5_registry_register_get emptyConfigs c5cfgA c5cfgB "nope" rfl rfl

/-- C9: GetTypes on a mysql-dialect connection (any capitalisation) returns
success with the fixed informational text and passes nothing to the executor. -/
theorem c9_gettypes_mysql_informational (dbType targetDbID : String)
    (typeP : Option String) (exec : ExecFn) (h : goToLower dbType = "mysql") :
    GetTypesTool.HandleRequest (.ok dbType) targetDbID typeP exec
      = (.ok "MySQL does not support custom data types in the same way as PostgreSQL. It only has built-in data types.", []) := by
  simp [GetTypesTool.HandleRequest, h]

/-- Witness for C9 at the dialect string MySQL. -/
theorem c9_gettypes_mysql_informational_witness :
    GetTypesTool.HandleRequest (.ok "MySQL") "db1" none (fun _ _ => .ok "x")
      = (.ok "MySQL does not support custom data types in the same way as PostgreSQL. It only has built-in data types.", []) :=
  c9_gettypes_mysql_informational "MySQL" "db1" none (fun _ _ => .ok "x") (by decide)

/-- C2 counterexample: GetSampleData on a connection whose resolved dialect is
sqlite (neither postgres nor mysql) does not fail; it falls back to the MySQL
identifier quoting, executes the statement and returns success, refuting the
claim that every capability fails before execution on an unsupported dialect. -/
theorem c2_counterexample :
    (GetSampleDataTool.HandleRequest (.ok "sqlite") "db1" "users" none none none none
        (fun _ _ => .ok "row")).1 = .ok "# Sample Data from Table users in Database db1\n\nrow"
  ∧ (GetSampleDataTool.HandleRequest (.ok "sqlite") "db1" "users" none none none none
        (fun _ _ => .ok "row")).2 = [(true, "SELECT * FROM `users` LIMIT 10")] :=
  ⟨rfl, rfl⟩

/-- C2 (amended): for the seven dialect-switching capabilities (GetStats,
GetTableStats, GetIndexes, GetConstraints, GetViews, GetTypes, GetSchemas) a
GetDatabaseType error or a resolved dialect that is neither postgres nor mysql
makes the call return an error with no statement passed to the executor;
GetSampleData and GetUniqueValues return an error with no execution on a
GetDatabaseType failure (but, per the counterexample, not on an unsupported
dialect). -/
theorem c2_dialect_guard (dbType e targetDbID tableName columnName : String)
    (p1 p2 : Option String) (b1 : Option Bool) (limP : Option Int)
    (wP oP : Option String) (rP icP inP : Option Bool) (exec : ExecFn)
    (hnp : (goToLower dbType == "postgres") = false)
    (hnm : (goToLower dbType == "mysql") = false) :
    DbStatsTool.HandleRequest (.ok dbType) targetDbID b1 exec
      = (.error ("unsupported database type for statistics: " ++ dbType), [])
  ∧ DbStatsTool.HandleRequest (.error e) targetDbID b1 exec
      = (.error ("failed to get database type: " ++ e), [])
  ∧ TableStatsTool.HandleRequest (.ok dbType) targetDbID tableName b1 exec
      = (.error ("unsupported database type for table statistics: " ++ dbType), [])
  ∧ TableStatsTool.HandleRequest (.error e) targetDbID tableName b1 exec
      = (.error ("failed to get database type: " ++ e), [])
  ∧ GetIndexesTool.HandleRequest (.ok dbType) targetDbID p1 b1 exec
      = (.error ("unsupported database type for indexes: " ++ dbType), [])
  ∧ GetIndexesTool.HandleRequest (.error e) targetDbID p1 b1 exec
      = (.error ("failed to get database type: " ++ e), [])
  ∧ GetConstraintsTool.HandleRequest (.ok dbType) targetDbID p1 p2 exec
      = (.error ("unsupported database type for constraints: " ++ dbType), [])
  ∧ GetConstraintsTool.HandleRequest (.error e) targetDbID p1 p2 exec
      = (.error ("failed to get database type: " ++ e), [])
  ∧ GetViewsTool.HandleRequest (.ok dbType) targetDbID p1 b1 exec
      = (.error ("unsupported database type for views: " ++ dbType), [])
  ∧ GetViewsTool.HandleRequest (.error e) targetDbID p1 b1 exec
      = (.error ("failed to get database type: " ++ e), [])
  ∧ GetTypesTool.HandleRequest (.ok dbType) targetDbID p1 exec
      = (.error ("unsupported database type for custom data types: " ++ dbType), [])
  ∧ GetTypesTool.HandleRequest (.error e) targetDbID p1 exec
      = (.error ("failed to get database type: " ++ e), [])
  ∧ GetSchemasTool.HandleRequest (.ok dbType) targetDbID p1 b1 exec
      = (.error ("unsupported database type for schemas: " ++ dbType), [])
  ∧ GetSchemasTool.HandleRequest (.error e) targetDbID p1 b1 exec
      = (.error ("failed to get database type: " ++ e), [])
  ∧ GetSampleDataTool.HandleRequest (.error e) targetDbID tableName limP wP oP rP exec
      = (.error ("failed to get database type: " ++ e), [])
  ∧ GetUniqueValuesTool.HandleRequest (.error e) targetDbID tableName columnName limP wP icP inP exec
      = (.error ("failed to get database type: " ++ e), []) := by
  refine ⟨?_, rfl, ?_, rfl, ?_, rfl, ?_, rfl, ?_, rfl, ?_, rfl, ?_, rfl, rfl, rfl⟩ <;>
    simp [DbStatsTool.HandleRequest, TableStatsTool.HandleRequest, dbStatsQueriesFor,
      tableStatsQueriesFor, GetIndexesTool.HandleRequest, GetConstraintsTool.HandleRequest,
      GetViewsTool.HandleRequest, GetTypesTool.HandleRequest, GetSchemasTool.HandleRequest,
      hnp, hnm]

/-- Witness for C2 (amended) at the dialect oracle. -/
theorem c2_dialect_guard_witness :
    DbStatsTool.HandleRequest (.ok "oracle") "db1" none (fun _ _ => .ok "x")
      = (.error ("unsupported database type for statistics: " ++ "oracle"), []) :=
  (c2_dialect_guard "oracle" "boom" "db1" "t" "c" none none none none none none
    none none none (fun _ _ => .ok "x") (by decide) (by decide)).1

set_option maxRecDepth 10000 in
/-- C3 (code bug): in the MySQL index query the caller-supplied table name has
its backticks doubled but is interpolated into a single-quoted SQL literal, so
an internal single quote survives unescaped and terminates the quoted region
mid-identifier; the PostgreSQL variant doubles the single quote as required. -/
theorem c3_mysql_quote_breakout :
    strContainsSub (getMySQLIndexesQuery "a'b" false) "AND table_name = 'a'b'" = true
  ∧ strContainsSub (getMySQLIndexesQuery "a'b" false) "a''b" = false
  ∧ strContainsSub (getMySQLConstraintsQuery "a'b" "") "AND tc.table_name = 'a'b'" = true
  ∧ strContainsSub (getPostgresIndexesQuery "a'b" false) "AND t.relname = 'a''b'" = true := by
  refine ⟨rfl, rfl, rfl, rfl⟩

set_option maxRecDepth 10000 in
/-- C8 counterexample: flipping the detailed flag changes the GROUP BY clause
of both index queries (the suffix of the query from its GROUP BY differs),
refuting the claim that only the projected columns change. -/
theorem c8_counterexample :
    strFromSub (getPostgresIndexesQuery "" true) "\nGROUP BY "
      ≠ strFromSub (getPostgresIndexesQuery "" false) "\nGROUP BY "
  ∧ strFromSub (getMySQLIndexesQuery "" true) "\nGROUP BY "
      ≠ strFromSub (getMySQLIndexesQuery "" false) "\nGROUP BY " := by
  refine ⟨?_, ?_⟩ <;> decide

/-- C8 (amended): for the index queries the detailed flag extends the
projection and correspondingly extends the GROUP BY list with the newly
projected expressions, while the FROM/JOIN block and the name filter are
identical across the flag; for the views queries the flag changes only the
projected definition column, the FROM/WHERE block, filter and ORDER BY being
shared verbatim. -/
theorem c8_detailed_projection (tableName viewName : String) :
    (getPostgresIndexesQuery tableName true
        = (pgIndexesSelect ++ pgIndexesSelectDetail)
          ++ (pgIndexesFrom ++ pgIndexesFilter tableName)
          ++ (pgIndexesGroupBy ++ pgIndexesGroupByDetail) ++ pgIndexesOrder
      ∧ getPostgresIndexesQuery tableName false
        = pgIndexesSelect ++ (pgIndexesFrom ++ pgIndexesFilter tableName)
          ++ pgIndexesGroupBy ++ pgIndexesOrder)
  ∧ (getMySQLIndexesQuery tableName true
        = (myIndexesSelect ++ myIndexesSelectDetail)
          ++ (myIndexesFrom ++ myIndexesFilter tableName)
          ++ (myIndexesGroupBy ++ myIndexesGroupByDetail) ++ myIndexesOrder
      ∧ getMySQLIndexesQuery tableName false
        = myIndexesSelect ++ (myIndexesFrom ++ myIndexesFilter tableName)
          ++ myIndexesGroupBy ++ myIndexesOrder)
  ∧ (getPostgresViewsQuery viewName true
        = pgViewsProjDef ++ (pgViewsFromWhere ++ pgViewsFilter viewName ++ pgViewsOrder)
      ∧ getPostgresViewsQuery viewName false
        = pgViewsProjNoDef ++ (pgViewsFromWhere ++ pgViewsFilter viewName ++ pgViewsOrder))
  ∧ (getMySQLViewsQuery viewName true
        = (myViewsSelect ++ myViewsDefCol)
          ++ (myViewsFrom ++ myViewsFilter viewName ++ myViewsOrder)
      ∧ getMySQLViewsQuery viewName false
        = (myViewsSelect ++ myViewsNoDefCol)
          ++ (myViewsFrom ++ myViewsFilter viewName ++ myViewsOrder)) := by
  have hsplitDef : pgViewsBaseDef = pgViewsProjDef ++ pgViewsFromWhere := rfl
  have hsplitNoDef : pgViewsBaseNoDef = pgViewsProjNoDef ++ pgViewsFromWhere := rfl
  refine ⟨⟨?_, ?_⟩, ⟨?_, ?_⟩, ⟨?_, ?_⟩, ⟨?_, ?_⟩⟩ <;>
    simp [getPostgresIndexesQuery, getMySQLIndexesQuery, getPostgresViewsQuery,
      getMySQLViewsQuery, hsplitDef, hsplitNoDef, String.append_assoc]

end DbMcp
